import Mathlib

/-!
Shallow embedding of the yanshi-events-backend controllers
(src/controllers/categoryController.js, subcategoryController.js,
eventController.js) and the persistence gateway they call.

The relational store is modelled as explicit state (`St`): lists of rows plus
an id supply and a clock for the `createdAt` column.  Each Express handler
becomes a pure function `St → input → Response × St`.  JavaScript `Date`
values are modelled as `Int` epoch milliseconds, with `Option Int` where an
Invalid Date can flow (a number beyond the ECMAScript range of 8.64e15
milliseconds yields an Invalid Date, which the store client rejects); the
zod validation library's
object parse is modelled field by field, collecting every field issue, as zod
does.  External library checks whose exact regexes live outside this
repository (zod's `.url()`, `.email()`, the JS `Date.parse`) are given
executable models that preserve the control flow the controllers depend on.
-/

/-- A JSON scalar as it can appear in a request-body field. -/
inductive Value where
  | vStr (s : String)
  | vNum (n : Int)
  | vBool (b : Bool)
  | vNull
deriving Repr, DecidableEq

/-- One field-level problem reported by the validation layer
(models a zod issue: the offending path and a message). -/
structure ZodIssue where
  path : String
  message : String
deriving Repr, DecidableEq

/-- Case-insensitive string equality, modelling the Prisma
`mode: "insensitive"` name comparison used by the controllers. -/
def ciEq (a b : String) : Bool :=
  a.toList.map Char.toLower == b.toList.map Char.toLower

/-- Hexadecimal digit test used by the UUID syntax check. -/
def isHexDigit (c : Char) : Bool :=
  c.isDigit || (('a' ≤ c) && (c ≤ 'f')) || (('A' ≤ c) && (c ≤ 'F'))

/-- Syntactic UUID check modelling `z.string().uuid()`: 36 characters,
hyphens at positions 8, 13, 18, 23, hexadecimal digits elsewhere. -/
def isValidUUID (s : String) : Bool :=
  match s.toList with
  | a1 :: a2 :: a3 :: a4 :: a5 :: a6 :: a7 :: a8 :: h1 ::
    b1 :: b2 :: b3 :: b4 :: h2 ::
    c1 :: c2 :: c3 :: c4 :: h3 ::
    d1 :: d2 :: d3 :: d4 :: h4 ::
    e1 :: e2 :: e3 :: e4 :: e5 :: e6 :: e7 :: e8 :: e9 :: e10 :: e11 :: e12 :: [] =>
    h1 == '-' && h2 == '-' && h3 == '-' && h4 == '-' &&
    ([a1, a2, a3, a4, a5, a6, a7, a8,
      b1, b2, b3, b4, c1, c2, c3, c4, d1, d2, d3, d4,
      e1, e2, e3, e4, e5, e6, e7, e8, e9, e10, e11, e12].all isHexDigit)
  | _ => false

/-- Number of days in a month of the proleptic Gregorian calendar. -/
def daysInMonth (y m : Nat) : Nat :=
  if m == 2 then
    if y % 4 == 0 && (y % 100 != 0 || y % 400 == 0) then 29 else 28
  else if m == 4 || m == 6 || m == 9 || m == 11 then 30
  else 31

/-- Days from the civil epoch 1970-01-01 to year `y`, month `m`, day `d`
(proleptic Gregorian, years 0 to 9999). -/
def daysFromCivil (y m d : Nat) : Int :=
  let y1 := if m ≤ 2 then y - 1 else y
  let era := y1 / 400
  let yoe := y1 % 400
  let mp := if m > 2 then m - 3 else m + 9
  let doy := (153 * mp + 2) / 5 + d - 1
  let doe := yoe * 365 + yoe / 4 - yoe / 100 + doy
  (era * 146097 + doe : Int) - 719468

/-- Numeric value of a decimal digit character. -/
def digitVal (c : Char) : Nat := c.toNat - 48

/-- Models the JavaScript `Date.parse` / `new Date(string)` used by the event
controller (an external runtime facility): an ISO `YYYY-MM-DD` calendar date
parses to its UTC-midnight epoch-millisecond instant; everything else is
rejected.  Both the zod `date` refinement and `parseDate` go through this one
function, exactly as both go through the same runtime parser in the source. -/
def jsDateParse (s : String) : Option Int :=
  match s.toList with
  | [y1, y2, y3, y4, '-', m1, m2, '-', d1, d2] =>
    if [y1, y2, y3, y4, m1, m2, d1, d2].all Char.isDigit then
      let y := ((digitVal y1 * 10 + digitVal y2) * 10 + digitVal y3) * 10 + digitVal y4
      let m := digitVal m1 * 10 + digitVal m2
      let d := digitVal d1 * 10 + digitVal d2
      if 1 ≤ m && m ≤ 12 && 1 ≤ d && d ≤ daysInMonth y m then
        some (86400000 * daysFromCivil y m d)
      else none
    else none
  | _ => none

/-- Models zod's `.url()` check (a full URL parse in the external library):
a nonempty scheme, the `://` separator, and a nonempty remainder. -/
def isValidURL (s : String) : Bool :=
  match s.splitOn "://" with
  | [scheme, rest] => scheme != "" && rest != ""
  | _ => false

/-- Models zod's `.email()` check (a regex in the external library):
a nonempty local part, one `@`, and a domain containing a dot. -/
def isValidEmail (s : String) : Bool :=
  match s.splitOn "@" with
  | [l, d] => l != "" && d.contains '.'
  | _ => false

/-- Hexadecimal digit character for a value below 16. -/
def hexChar (n : Nat) : Char :=
  if n < 10 then Char.ofNat (48 + n) else Char.ofNat (87 + n)

/-- Models the store's `uuid()` id generator (Prisma default, declared in the
persistence schema outside this source tree): the n-th generated id, a
version-4-shaped UUID whose final segment encodes `n` in hexadecimal. -/
def genId (n : Nat) : String :=
  String.mk ['0', '0', '0', '0', '0', '0', '0', '0', '-',
             '0', '0', '0', '0', '-', '4', '0', '0', '0', '-',
             '8', '0', '0', '0', '-',
             hexChar (n / 16 ^ 11 % 16), hexChar (n / 16 ^ 10 % 16),
             hexChar (n / 16 ^ 9 % 16), hexChar (n / 16 ^ 8 % 16),
             hexChar (n / 16 ^ 7 % 16), hexChar (n / 16 ^ 6 % 16),
             hexChar (n / 16 ^ 5 % 16), hexChar (n / 16 ^ 4 % 16),
             hexChar (n / 16 ^ 3 % 16), hexChar (n / 16 ^ 2 % 16),
             hexChar (n / 16 ^ 1 % 16), hexChar (n / 16 ^ 0 % 16)]

/-- A Category row. -/
structure Category where
  id : String
  name : String
deriving Repr, DecidableEq

/-- A Subcategory row. -/
structure Subcategory where
  id : String
  name : String
  categoryId : String
deriving Repr, DecidableEq

/-- An Event row.  `date` and `createdAt` are epoch-millisecond instants
(`createdAt` is drawn from the store clock). -/
structure Event where
  id : String
  name : String
  date : Int
  venue : String
  imageUrl : Option String
  categoryId : String
  subcategoryId : String
  contactPhone : Option String
  contactEmail : Option String
  createdAt : Nat
deriving Repr, DecidableEq

/-- The relational store: the three tables plus the id supply and the clock
that stamps `createdAt`. -/
structure St where
  categories : List Category
  subcategories : List Subcategory
  events : List Event
  nextId : Nat
  now : Nat
deriving Repr, DecidableEq

/-- A Subcategory joined with its parent Category
(`include category select id name`). -/
structure SubcatJoined where
  sub : Subcategory
  category : Option Category
deriving Repr, DecidableEq

/-- An Event joined with its Category and Subcategory
(`include category subcategory`). -/
structure EventJoined where
  event : Event
  category : Option Category
  subcategory : Option Subcategory
deriving Repr, DecidableEq

/-- The JSON payload of a successful response. -/
inductive Body where
  | category (c : Category)
  | categories (l : List Category)
  | subcategory (s : Subcategory)
  | subcategoriesJ (l : List SubcatJoined)
  | eventJ (e : EventJoined)
  | eventsJ (l : List EventJoined)
deriving Repr, DecidableEq

/-- An HTTP response as the controllers build it: status code,
optional `message`, the `errors` array (validation failures only),
the entity payload, and the `details` string of 500 responses. -/
structure Response where
  status : Nat
  message : Option String
  errors : Option (List ZodIssue)
  body : Option Body
  details : Option String
deriving Repr, DecidableEq

/-- `res.json(entity)` — status 200, entity payload only. -/
def ok200 (b : Body) : Response :=
  ⟨200, none, none, some b, none⟩

/-- `res.json({ message })` — status 200 with a message body. -/
def msg200 (m : String) : Response :=
  ⟨200, some m, none, none, none⟩

/-- `res.status(400).json({ message })` — malformed-id rejection. -/
def bad400 (m : String) : Response :=
  ⟨400, some m, none, none, none⟩

/-- `res.status(400).json({ message: "Validation Error", errors })`. -/
def validation400 (es : List ZodIssue) : Response :=
  ⟨400, some "Validation Error", some es, none, none⟩

/-- `res.status(409).json({ message })` — duplicate-name conflict. -/
def conflict409 (m : String) : Response :=
  ⟨409, some m, none, none, none⟩

/-- `res.status(404).json({ message })` — missing referenced entity. -/
def notFound404 (m : String) : Response :=
  ⟨404, some m, none, none, none⟩

/-- `res.status(500).json({ message: "Internal server error", details })`. -/
def err500 (d : String) : Response :=
  ⟨500, some "Internal server error", none, none, some d⟩

/-- `prisma.category.findFirst` with a case-insensitive name equality. -/
def categoryFindFirstCI (st : St) (name : String) : Option Category :=
  st.categories.find? (fun c => ciEq c.name name)

/-- `prisma.category.findUnique({ where: { id } })`. -/
def categoryFindUnique (st : St) (id : String) : Option Category :=
  st.categories.find? (fun c => c.id == id)

/-- `prisma.category.create`: a fresh id from the store's generator,
the row appended to the table. -/
def categoryCreate (st : St) (name : String) : Category × St :=
  let c : Category := ⟨genId st.nextId, name⟩
  (c, { st with categories := st.categories ++ [c], nextId := st.nextId + 1 })

/-- `prisma.category.delete({ where: { id } })`: removes the row, or throws
(models Prisma error P2025) when no row has that id. -/
def categoryDelete (st : St) (id : String) : Except String St :=
  if st.categories.any (fun c => c.id == id) then
    .ok { st with categories := st.categories.filter (fun c => c.id != id) }
  else .error "Record to delete does not exist."

/-- `prisma.subcategory.findFirst` with case-insensitive name equality
scoped to a category. -/
def subcategoryFindFirstCI (st : St) (name categoryId : String) : Option Subcategory :=
  st.subcategories.find? (fun s => ciEq s.name name && s.categoryId == categoryId)

/-- `prisma.subcategory.findUnique({ where: { id } })`. -/
def subcategoryFindUnique (st : St) (id : String) : Option Subcategory :=
  st.subcategories.find? (fun s => s.id == id)

/-- `prisma.subcategory.create`.  Modelled from the spec: the persistence
schema (not part of this source tree) declares a foreign key from
`Subcategory.categoryId` to `Category`, so the store rejects an insert whose
`categoryId` resolves to no Category, surfacing as a generic store error. -/
def subcategoryCreate (st : St) (name categoryId : String) :
    Except String (Subcategory × St) :=
  if (categoryFindUnique st categoryId).isSome then
    let s : Subcategory := ⟨genId st.nextId, name, categoryId⟩
    .ok (s, { st with subcategories := st.subcategories ++ [s],
                      nextId := st.nextId + 1 })
  else .error "Foreign key constraint failed on the field: categoryId"

/-- `prisma.subcategory.delete({ where: { id } })`, throwing (P2025) when
no row has that id. -/
def subcategoryDelete (st : St) (id : String) : Except String St :=
  if st.subcategories.any (fun s => s.id == id) then
    .ok { st with subcategories := st.subcategories.filter (fun s => s.id != id) }
  else .error "Record to delete does not exist."

/-- `prisma.subcategory.findMany` with the parent-category include. -/
def subcategoryFindManyAll (st : St) : List SubcatJoined :=
  st.subcategories.map (fun s => ⟨s, categoryFindUnique st s.categoryId⟩)

/-- `prisma.subcategory.findMany({ where: { categoryId } })` with the
parent-category include. -/
def subcategoryFindManyByCategory (st : St) (categoryId : String) : List SubcatJoined :=
  (st.subcategories.filter (fun s => s.categoryId == categoryId)).map
    (fun s => ⟨s, categoryFindUnique st s.categoryId⟩)

/-- Resolve the `include: { category: true, subcategory: true }` joins
for one Event row. -/
def joinEvent (st : St) (e : Event) : EventJoined :=
  ⟨e, categoryFindUnique st e.categoryId, subcategoryFindUnique st e.subcategoryId⟩

/-- Insert an Event into a descending-`createdAt` ordered list. -/
def insertDesc (e : Event) : List Event → List Event
  | [] => [e]
  | x :: xs => if e.createdAt ≤ x.createdAt then x :: insertDesc e xs else e :: x :: xs

/-- `orderBy: { createdAt: "desc" }`. -/
def sortByCreatedAtDesc (l : List Event) : List Event :=
  l.foldr insertDesc []

/-- `prisma.event.findMany({ include, orderBy: { createdAt: "desc" } })`. -/
def eventFindManyAll (st : St) : List EventJoined :=
  (sortByCreatedAtDesc st.events).map (joinEvent st)

/-- The `where` filter of the event filter endpoint: an omitted filter
(`undefined`) matches everything. -/
def matchesFilter (cf sf : Option String) (e : Event) : Bool :=
  (match cf with
   | none => true
   | some c => e.categoryId == c) &&
  (match sf with
   | none => true
   | some s => e.subcategoryId == s)

/-- `prisma.event.findMany({ where, include, orderBy })` as called by the
filter endpoint. -/
def eventFindManyWhere (st : St) (cf sf : Option String) : List EventJoined :=
  (sortByCreatedAtDesc (st.events.filter (matchesFilter cf sf))).map (joinEvent st)

/-- `prisma.event.findUnique({ where: { id }, include })`. -/
def eventFindUnique (st : St) (id : String) : Option EventJoined :=
  (st.events.find? (fun e => e.id == id)).map (joinEvent st)

/-- `prisma.event.create({ data: { ...parsedData, date }, include })`.
The `date` argument is the possibly-Invalid `Date` object the controller
built: the Prisma client rejects an Invalid Date while serialising the
query, before anything reaches the database, so `none` throws.  A fresh id
and the `createdAt` stamp come from the store; the foreign keys on
`categoryId` and `subcategoryId` are modelled from the spec (the
persistence schema is not part of this source tree): an insert whose
references do not resolve is rejected as a generic store error. -/
def eventCreate (st : St) (name : String) (date : Option Int) (venue : String)
    (imageUrl : Option (Option String)) (categoryId subcategoryId : String)
    (contactPhone contactEmail : Option String) :
    Except String (EventJoined × St) :=
  match date with
  | none => .error "Provided Date object is invalid."
  | some t =>
    if (categoryFindUnique st categoryId).isSome &&
       (subcategoryFindUnique st subcategoryId).isSome then
      let e : Event :=
        ⟨genId st.nextId, name, t, venue, imageUrl.join,
         categoryId, subcategoryId, contactPhone, contactEmail, st.now⟩
      let st' : St := { st with events := st.events ++ [e],
                                nextId := st.nextId + 1, now := st.now + 1 }
      .ok (joinEvent st' e, st')
    else .error "Foreign key constraint failed"

/-- `prisma.event.update({ where: { id }, data: { ...parsedData, date },
include })`.  An Invalid Date (`none`) is rejected by the Prisma client
while serialising the query, before the engine runs — hence before the
missing-row check; with a real instant, a missing row throws (P2025); an
`undefined` optional field is left unchanged, as Prisma skips undefined
data fields; the foreign keys are modelled from the spec as in
`eventCreate`. -/
def eventUpdate (st : St) (id : String) (name : String) (date : Option Int)
    (venue : String) (imageUrl : Option (Option String))
    (categoryId subcategoryId : String)
    (contactPhone contactEmail : Option String) :
    Except String (EventJoined × St) :=
  match date with
  | none => .error "Provided Date object is invalid."
  | some t =>
    match st.events.find? (fun e => e.id == id) with
    | none => .error "Record to update not found."
    | some old =>
      if (categoryFindUnique st categoryId).isSome &&
         (subcategoryFindUnique st subcategoryId).isSome then
        let e : Event :=
          ⟨old.id, name, t, venue,
           (match imageUrl with
            | none => old.imageUrl
            | some v => v),
           categoryId, subcategoryId,
           (match contactPhone with
            | none => old.contactPhone
            | some v => some v),
           (match contactEmail with
            | none => old.contactEmail
            | some v => some v),
           old.createdAt⟩
        let newEvents := st.events.map (fun x => if x.id == id then e else x)
        let st' : St := { st with events := newEvents }
        .ok (joinEvent st' e, st')
      else .error "Foreign key constraint failed"

/-- `prisma.event.delete({ where: { id } })`, throwing (P2025) when no row
has that id. -/
def eventDelete (st : St) (id : String) : Except String St :=
  if st.events.any (fun e => e.id == id) then
    .ok { st with events := st.events.filter (fun e => e.id != id) }
  else .error "Record to delete does not exist."

/-- Zod string schema with a minimum length, e.g.
`z.string().min(1, msg)`: a required field of the object schema. -/
def parseRequiredString (field msg : String) (minLen : Nat) :
    Option Value → Except ZodIssue String
  | none => .error ⟨field, "Required"⟩
  | some (Value.vStr s) => if s.length < minLen then .error ⟨field, msg⟩ else .ok s
  | some _ => .error ⟨field, "Expected string"⟩

/-- `uuidSchema = z.string().uuid("Invalid UUID format")` as a required
object field. -/
def parseUUIDField (field : String) : Option Value → Except ZodIssue String
  | none => .error ⟨field, "Required"⟩
  | some (Value.vStr s) =>
    if isValidUUID s then .ok s else .error ⟨field, "Invalid UUID format"⟩
  | some _ => .error ⟨field, "Expected string"⟩

/-- The `date` union schema: a positive integer epoch timestamp, or a string
accepted by the date parser.  The parsed value keeps the branch taken, as the
controller later branches on `typeof parsedData.date`. -/
def parseDateField : Option Value → Except ZodIssue (Int ⊕ String)
  | none => .error ⟨"date", "Required"⟩
  | some (Value.vNum n) =>
    if 0 < n then .ok (Sum.inl n)
    else .error ⟨"date", "Date must be a valid timestamp"⟩
  | some (Value.vStr s) =>
    if (jsDateParse s).isSome then .ok (Sum.inr s)
    else .error ⟨"date", "Invalid date string format"⟩
  | some _ => .error ⟨"date", "Invalid input"⟩

/-- `imageUrl: z.string().url().nullable().optional()`: absent and `null`
are accepted and kept apart (Prisma treats `undefined` and `null`
differently on update). -/
def parseImageUrl : Option Value → Except ZodIssue (Option (Option String))
  | none => .ok none
  | some Value.vNull => .ok (some none)
  | some (Value.vStr s) =>
    if isValidURL s then .ok (some (some s)) else .error ⟨"imageUrl", "Invalid url"⟩
  | some _ => .error ⟨"imageUrl", "Expected string"⟩

/-- `contactPhone: z.string().min(8, "Contact phone is required").optional()`. -/
def parseContactPhone : Option Value → Except ZodIssue (Option String)
  | none => .ok none
  | some (Value.vStr s) =>
    if s.length < 8 then .error ⟨"contactPhone", "Contact phone is required"⟩
    else .ok (some s)
  | some _ => .error ⟨"contactPhone", "Expected string"⟩

/-- `contactEmail: z.string().email("Invalid email format").optional()`. -/
def parseContactEmail : Option Value → Except ZodIssue (Option String)
  | none => .ok none
  | some (Value.vStr s) =>
    if isValidEmail s then .ok (some s) else .error ⟨"contactEmail", "Invalid email format"⟩
  | some _ => .error ⟨"contactEmail", "Expected string"⟩

/-- The issues contributed by one field's parse result. -/
def issuesOf {α : Type} : Except ZodIssue α → List ZodIssue
  | .ok _ => []
  | .error i => [i]

/-- Raw request body of `POST /categories`. -/
structure RawCategoryBody where
  name : Option Value
deriving Repr, DecidableEq

/-- Raw request body of `POST /subcategories`. -/
structure RawSubcategoryBody where
  name : Option Value
  categoryId : Option Value
deriving Repr, DecidableEq

/-- Raw request body of `POST /events` and `PUT /events/:id`. -/
structure RawEventBody where
  name : Option Value
  date : Option Value
  venue : Option Value
  imageUrl : Option Value
  categoryId : Option Value
  subcategoryId : Option Value
  contactPhone : Option Value
  contactEmail : Option Value
deriving Repr, DecidableEq

/-- The typed value produced by `createCategorySchema.parse`. -/
structure ParsedCategory where
  name : String
deriving Repr, DecidableEq

/-- The typed value produced by `createSubcategorySchema.parse`. -/
structure ParsedSubcategory where
  name : String
  categoryId : String
deriving Repr, DecidableEq

/-- The typed value produced by `createEventSchema.parse`. -/
structure ParsedEvent where
  name : String
  date : Int ⊕ String
  venue : String
  imageUrl : Option (Option String)
  categoryId : String
  subcategoryId : String
  contactPhone : Option String
  contactEmail : Option String
deriving Repr, DecidableEq

/-- All issues of `createCategorySchema` on a raw body. -/
def categoryFieldIssues (b : RawCategoryBody) : List ZodIssue :=
  issuesOf (parseRequiredString "name" "Category name is required" 1 b.name)

/-- `createCategorySchema.parse`: zod object parsing collects the issues of
every field before failing. -/
def validateCategory (b : RawCategoryBody) :
    Except (List ZodIssue) ParsedCategory :=
  match parseRequiredString "name" "Category name is required" 1 b.name with
  | .ok n => .ok ⟨n⟩
  | .error _ => .error (categoryFieldIssues b)

/-- All issues of `createSubcategorySchema` on a raw body, in field order. -/
def subcategoryFieldIssues (b : RawSubcategoryBody) : List ZodIssue :=
  issuesOf (parseRequiredString "name" "Subcategory name is required" 1 b.name) ++
  issuesOf (parseUUIDField "categoryId" b.categoryId)

/-- `createSubcategorySchema.parse`: every field is checked and all issues
are collected, as zod object parsing does. -/
def validateSubcategory (b : RawSubcategoryBody) :
    Except (List ZodIssue) ParsedSubcategory :=
  match parseRequiredString "name" "Subcategory name is required" 1 b.name,
        parseUUIDField "categoryId" b.categoryId with
  | .ok n, .ok c => .ok ⟨n, c⟩
  | _, _ => .error (subcategoryFieldIssues b)

/-- All issues of `createEventSchema` on a raw body, in field order. -/
def eventFieldIssues (b : RawEventBody) : List ZodIssue :=
  issuesOf (parseRequiredString "name" "Event name is required" 1 b.name) ++
  issuesOf (parseDateField b.date) ++
  issuesOf (parseRequiredString "venue" "Venue is required" 1 b.venue) ++
  issuesOf (parseImageUrl b.imageUrl) ++
  issuesOf (parseUUIDField "categoryId" b.categoryId) ++
  issuesOf (parseUUIDField "subcategoryId" b.subcategoryId) ++
  issuesOf (parseContactPhone b.contactPhone) ++
  issuesOf (parseContactEmail b.contactEmail)

/-- `createEventSchema.parse`: every field is checked and all issues are
collected, as zod object parsing does; used both by event creation and by
event update. -/
def validateEvent (b : RawEventBody) : Except (List ZodIssue) ParsedEvent :=
  match parseRequiredString "name" "Event name is required" 1 b.name,
        parseDateField b.date,
        parseRequiredString "venue" "Venue is required" 1 b.venue,
        parseImageUrl b.imageUrl,
        parseUUIDField "categoryId" b.categoryId,
        parseUUIDField "subcategoryId" b.subcategoryId,
        parseContactPhone b.contactPhone,
        parseContactEmail b.contactEmail with
  | .ok n, .ok d, .ok v, .ok iu, .ok c, .ok sc, .ok ph, .ok em =>
    .ok ⟨n, d, v, iu, c, sc, ph, em⟩
  | _, _, _, _, _, _, _, _ => .error (eventFieldIssues b)

/-- The `parseDate` helper: `new Date(dateInput)` for a string, throwing
`Invalid date format` when the runtime parser yields an invalid date. -/
def parseDate (s : String) : Except String Int :=
  match jsDateParse s with
  | some t => .ok t
  | none => .error "Invalid date format"

/-- Models `new Date(n)` for a numeric argument: the instant `n` when it
lies within the ECMAScript Date range of 8.64e15 milliseconds either side
of the epoch, an Invalid Date (`none`) beyond it — `new Date` itself never
throws on a number. -/
def jsNewDateNum (n : Int) : Option Int :=
  if n.natAbs ≤ 8640000000000000 then some n else none

/-- The date conversion in the event controller:
`typeof parsedData.date === "number" ? new Date(parsedData.date) :
parseDate(parsedData.date)`.  The numeric branch can hand back an Invalid
Date (an out-of-range epoch) without throwing; the string branch throws
exactly when the runtime parser fails, and a string it does parse is always
a valid in-range instant. -/
def convertDate : Int ⊕ String → Except String (Option Int)
  | Sum.inl n => .ok (jsNewDateNum n)
  | Sum.inr s =>
    match parseDate s with
    | .ok t => .ok (some t)
    | .error e => .error e

/-- `createCategory` (categoryController.js): validate the body, check for a
case-insensitive duplicate name, then insert; a zod failure is a 400 with the
issues, a duplicate a 409, and nothing else can fail. -/
def createCategory (st : St) (b : RawCategoryBody) : Response × St :=
  match validateCategory b with
  | .error es => (validation400 es, st)
  | .ok p =>
    match categoryFindFirstCI st p.name with
    | some _ => (conflict409 "Category with this name already exists", st)
    | none =>
      let (c, st') := categoryCreate st p.name
      (ok200 (Body.category c), st')

/-- `getCategories` (categoryController.js): return every Category row. -/
def getCategories (st : St) : Response × St :=
  (ok200 (Body.categories st.categories), st)

/-- `deleteCategory` (categoryController.js): reject a malformed id with 400
before touching the store; a store failure (including a missing row) is a
500. -/
def deleteCategory (st : St) (id : String) : Response × St :=
  if !isValidUUID id then (bad400 "Valid Category ID is required", st)
  else
    match categoryDelete st id with
    | .ok st' => (msg200 "Category deleted", st')
    | .error d => (err500 d, st)

/-- `createSubcategory` (subcategoryController.js): validate the body, check
for a case-insensitive duplicate name within the same category, then insert;
no check that the referenced Category exists is made before the insert, so a
dangling reference surfaces as the store's generic 500. -/
def createSubcategory (st : St) (b : RawSubcategoryBody) : Response × St :=
  match validateSubcategory b with
  | .error es => (validation400 es, st)
  | .ok p =>
    match subcategoryFindFirstCI st p.name p.categoryId with
    | some _ =>
      (conflict409 "Subcategory with this name already exists in this category", st)
    | none =>
      match subcategoryCreate st p.name p.categoryId with
      | .ok (s, st') => (ok200 (Body.subcategory s), st')
      | .error d => (err500 d, st)

/-- `getSubcategories` (subcategoryController.js): every Subcategory row
joined with its parent Category. -/
def getSubcategories (st : St) : Response × St :=
  (ok200 (Body.subcategoriesJ (subcategoryFindManyAll st)), st)

/-- `deleteSubcategory` (subcategoryController.js). -/
def deleteSubcategory (st : St) (id : String) : Response × St :=
  if !isValidUUID id then (bad400 "Valid Subcategory ID is required", st)
  else
    match subcategoryDelete st id with
    | .ok st' => (msg200 "Subcategory deleted", st')
    | .error d => (err500 d, st)

/-- `getSubcategoriesByCategoryId` (subcategoryController.js). -/
def getSubcategoriesByCategoryId (st : St) (categoryId : String) : Response × St :=
  if !isValidUUID categoryId then (bad400 "Valid Category ID is required", st)
  else (ok200 (Body.subcategoriesJ (subcategoryFindManyByCategory st categoryId)), st)

/-- `createEvent` (eventController.js): validate the body; verify the
referenced Category, then the Subcategory, each failing 404 with a message
naming the missing id; convert the date; insert and return the Event joined
with its relations.  A date-conversion failure or a store failure falls into
the generic catch as a 500. -/
def createEvent (st : St) (b : RawEventBody) : Response × St :=
  match validateEvent b with
  | .error es => (validation400 es, st)
  | .ok p =>
    match categoryFindUnique st p.categoryId with
    | none =>
      (notFound404 ("Category with ID " ++ p.categoryId ++ " does not exist"), st)
    | some _ =>
      match subcategoryFindUnique st p.subcategoryId with
      | none =>
        (notFound404 ("Subcategory with ID " ++ p.subcategoryId ++ " does not exist"), st)
      | some _ =>
        match convertDate p.date with
        | .error d => (err500 d, st)
        | .ok t =>
          match eventCreate st p.name t p.venue p.imageUrl
              p.categoryId p.subcategoryId p.contactPhone p.contactEmail with
          | .ok (ej, st') => (ok200 (Body.eventJ ej), st')
          | .error d => (err500 d, st)

/-- `getEvents` (eventController.js): every Event joined with its relations,
ordered by creation time descending. -/
def getEvents (st : St) : Response × St :=
  (ok200 (Body.eventsJ (eventFindManyAll st)), st)

/-- `getEventById` (eventController.js): 400 on a malformed id, 404 when no
row has the id, otherwise the joined Event. -/
def getEventById (st : St) (id : String) : Response × St :=
  if !isValidUUID id then (bad400 "Valid Event ID is required", st)
  else
    match eventFindUnique st id with
    | none => (notFound404 "Event not found", st)
    | some ej => (ok200 (Body.eventJ ej), st)

/-- `updateEvent` (eventController.js): 400 on a malformed id; the body is
validated against the full creation schema; no re-check that the referenced
Category or Subcategory exists; the store update of a missing row (or a
dangling reference) surfaces as a 500. -/
def updateEvent (st : St) (id : String) (b : RawEventBody) : Response × St :=
  if !isValidUUID id then (bad400 "Valid Event ID is required", st)
  else
    match validateEvent b with
    | .error es => (validation400 es, st)
    | .ok p =>
      match convertDate p.date with
      | .error d => (err500 d, st)
      | .ok t =>
        match eventUpdate st id p.name t p.venue p.imageUrl
            p.categoryId p.subcategoryId p.contactPhone p.contactEmail with
        | .ok (ej, st') => (ok200 (Body.eventJ ej), st')
        | .error d => (err500 d, st)

/-- `deleteEvent` (eventController.js). -/
def deleteEvent (st : St) (id : String) : Response × St :=
  if !isValidUUID id then (bad400 "Valid Event ID is required", st)
  else
    match eventDelete st id with
    | .ok st' => (msg200 "Event deleted", st')
    | .error d => (err500 d, st)

/-- Raw query string of `GET /events/filter`. -/
structure RawQuery where
  categoryId : Option String
  subcategoryId : Option String
deriving Repr, DecidableEq

/-- The issues of the filter endpoint's query schema
(`categoryId` and `subcategoryId`, each an optional UUID). -/
def queryIssues (q : RawQuery) : List ZodIssue :=
  (match q.categoryId with
   | none => []
   | some s => if isValidUUID s then [] else [⟨"categoryId", "Invalid UUID format"⟩]) ++
  (match q.subcategoryId with
   | none => []
   | some s => if isValidUUID s then [] else [⟨"subcategoryId", "Invalid UUID format"⟩])

/-- `getEventsByCategoryAndSubcategory` (eventController.js): validate the
optional query UUIDs, then list the Events matching whichever filters are
present, joined with relations and ordered by creation time descending. -/
def getEventsByCategoryAndSubcategory (st : St) (q : RawQuery) : Response × St :=
  match queryIssues q with
  | [] => (ok200 (Body.eventsJ (eventFindManyWhere st q.categoryId q.subcategoryId)), st)
  | es => (validation400 es, st)

/-! ## Shared constants and helper lemmas -/

/-- The empty store. -/
def emptySt : St := ⟨[], [], [], 0, 0⟩

/-- A syntactically valid Category id used in concrete scenarios. -/
def uuidA : String := "123e4567-e89b-12d3-a456-426614174000"

/-- A second syntactically valid id. -/
def uuidB : String := "123e4567-e89b-12d3-a456-426614174001"

/-- A third syntactically valid id. -/
def uuidC : String := "123e4567-e89b-12d3-a456-426614174002"

/-- A shape-valid event-creation body used in concrete scenarios:
integer epoch date, both references pointing at `uuidA`, `uuidB`. -/
def sampleEventBody : RawEventBody :=
  ⟨some (Value.vStr "Concert"), some (Value.vNum 1732000000000),
   some (Value.vStr "Hall"), none,
   some (Value.vStr uuidA), some (Value.vStr uuidB), none, none⟩

/-- Every value of `hexChar` at a residue modulo 16 is a hexadecimal digit. -/
theorem isHexDigit_hexChar_mod (m : Nat) : isHexDigit (hexChar (m % 16)) = true := by
  have h : m % 16 < 16 := Nat.mod_lt _ (by decide)
  have aux : ∀ k, k < 16 → isHexDigit (hexChar k) = true := by decide
  exact aux _ h

/-- Every id the store generator produces passes the UUID syntax check. -/
theorem isValidUUID_genId (n : Nat) : isValidUUID (genId n) = true := by
  simp [isValidUUID, genId, isHexDigit_hexChar_mod]
  decide

/-! ## C3 — malformed ids are rejected with 400 before any store access -/

/-- C3: on every `:id` route (delete Category, delete Subcategory, get Event
by id, update Event, delete Event), an id that is not syntactically a valid
UUID produces exactly the 400 bad-request response and leaves the store
untouched — the result is a constant, independent of the store, so no lookup
or mutation happens, and the status is never 404 or 500. -/
theorem c3_malformed_id_yields_400 (st : St) (id : String) (b : RawEventBody)
    (h : isValidUUID id = false) :
    deleteCategory st id = (bad400 "Valid Category ID is required", st) ∧
    deleteSubcategory st id = (bad400 "Valid Subcategory ID is required", st) ∧
    getEventById st id = (bad400 "Valid Event ID is required", st) ∧
    updateEvent st id b = (bad400 "Valid Event ID is required", st) ∧
    deleteEvent st id = (bad400 "Valid Event ID is required", st) := by
  simp [deleteCategory, deleteSubcategory, getEventById, updateEvent,
        deleteEvent, h]

/-- C3 witness: the concrete malformed id `not-a-uuid` on the empty store. -/
theorem c3_malformed_id_yields_400_witness :
    deleteCategory emptySt "not-a-uuid" = (bad400 "Valid Category ID is required", emptySt) ∧
    deleteSubcategory emptySt "not-a-uuid" = (bad400 "Valid Subcategory ID is required", emptySt) ∧
    getEventById emptySt "not-a-uuid" = (bad400 "Valid Event ID is required", emptySt) ∧
    updateEvent emptySt "not-a-uuid" sampleEventBody = (bad400 "Valid Event ID is required", emptySt) ∧
    deleteEvent emptySt "not-a-uuid" = (bad400 "Valid Event ID is required", emptySt) :=
  c3_malformed_id_yields_400 emptySt "not-a-uuid" sampleEventBody (by decide)

/-! ## C10 — read operations do not change the store -/

/-- C10: each read operation — list Categories, list Subcategories, list
Subcategories by category, list Events, get Event by id, filter Events —
returns the store exactly as it received it, on every path including the
error paths. -/
theorem c10_reads_preserve_store (st : St) (id cid : String) (q : RawQuery) :
    (getCategories st).2 = st ∧
    (getSubcategories st).2 = st ∧
    (getSubcategoriesByCategoryId st cid).2 = st ∧
    (getEvents st).2 = st ∧
    (getEventById st id).2 = st ∧
    (getEventsByCategoryAndSubcategory st q).2 = st := by
  refine ⟨rfl, rfl, ?_, rfl, ?_, ?_⟩
  · unfold getSubcategoriesByCategoryId
    split <;> rfl
  · unfold getEventById
    split
    · rfl
    · split <;> rfl
  · unfold getEventsByCategoryAndSubcategory
    split <;> rfl

/-! ## C4 — the filter endpoint with no filters is the list endpoint -/

/-- Omitted filters match every Event row. -/
theorem matchesFilter_none_none (e : Event) : matchesFilter none none e = true := rfl

/-- C4: calling the Event filter operation with both `categoryId` and
`subcategoryId` omitted produces exactly the response of the list operation:
same joined rows, same descending creation-time order, same store. -/
theorem c4_filter_defaults_to_list (st : St) :
    getEventsByCategoryAndSubcategory st ⟨none, none⟩ = getEvents st := by
  have hf : st.events.filter (matchesFilter none none) = st.events :=
    List.filter_eq_self.mpr (fun a _ => matchesFilter_none_none a)
  show (ok200 (Body.eventsJ (eventFindManyWhere st none none)), st) =
       (ok200 (Body.eventsJ (eventFindManyAll st)), st)
  unfold eventFindManyWhere eventFindManyAll
  rw [hf]

/-! ## C1 — Category creation: case-insensitive name conflict -/

/-- C1: for a shape-valid Category creation body, if the store already holds
a Category whose name equals the submitted name case-insensitively, the
operation answers 409 and the store is unchanged; otherwise the Category is
inserted with a fresh id and returned. -/
theorem c1_category_create_conflict (st : St) (b : RawCategoryBody)
    (p : ParsedCategory) (hv : validateCategory b = .ok p) :
    ((∃ c ∈ st.categories, ciEq c.name p.name = true) →
      createCategory st b =
        (conflict409 "Category with this name already exists", st)) ∧
    ((∀ c ∈ st.categories, ciEq c.name p.name = false) →
      createCategory st b =
        (ok200 (Body.category ⟨genId st.nextId, p.name⟩),
         { st with categories := st.categories ++ [⟨genId st.nextId, p.name⟩],
                   nextId := st.nextId + 1 })) := by
  constructor
  · rintro ⟨c, hc, hciq⟩
    have hsome : (categoryFindFirstCI st p.name).isSome := by
      unfold categoryFindFirstCI
      exact List.find?_isSome.mpr ⟨c, hc, hciq⟩
    obtain ⟨c0, hc0⟩ := Option.isSome_iff_exists.mp hsome
    simp [createCategory, hv, hc0]
  · intro hnone
    have h0 : categoryFindFirstCI st p.name = none := by
      unfold categoryFindFirstCI
      exact List.find?_eq_none.mpr (fun x hx => by simp [hnone x hx])
    simp [createCategory, hv, h0, categoryCreate]

/-- C1 witness: with `Music` stored, creating `MUSIC` conflicts with 409 and
the store is unchanged; on the empty store, creating `Music` inserts it. -/
theorem c1_category_create_conflict_witness :
    (createCategory ⟨[⟨uuidA, "Music"⟩], [], [], 5, 0⟩ ⟨some (Value.vStr "MUSIC")⟩ =
      (conflict409 "Category with this name already exists",
       ⟨[⟨uuidA, "Music"⟩], [], [], 5, 0⟩)) ∧
    (createCategory emptySt ⟨some (Value.vStr "Music")⟩ =
      (ok200 (Body.category ⟨genId 0, "Music"⟩),
       { emptySt with categories := [⟨genId 0, "Music"⟩], nextId := 1 })) := by
  constructor
  · exact (c1_category_create_conflict ⟨[⟨uuidA, "Music"⟩], [], [], 5, 0⟩
      ⟨some (Value.vStr "MUSIC")⟩ ⟨"MUSIC"⟩ rfl).1
      ⟨⟨uuidA, "Music"⟩, by simp, by decide⟩
  · exact (c1_category_create_conflict emptySt ⟨some (Value.vStr "Music")⟩
      ⟨"Music"⟩ rfl).2 (by intro c hc; simp [emptySt] at hc)

/-! ## C7 — Subcategory creation: conflict scoped to the category, no
referential pre-check -/

/-- C7: for a shape-valid Subcategory body, a case-insensitive duplicate name
inside the same category answers 409 with no insert; without such a duplicate
the row is inserted whenever the referenced Category exists — a same-named
Subcategory under a different category is no obstacle — and when the
referenced Category does not exist the handler still attempts the insert and
only the store's foreign-key rejection stops it, surfacing as a 500 (never as
a 404 pre-check), with no row inserted. -/
theorem c7_subcategory_create_scoped (st : St) (b : RawSubcategoryBody)
    (p : ParsedSubcategory) (hv : validateSubcategory b = .ok p) :
    ((∃ s ∈ st.subcategories,
        ciEq s.name p.name = true ∧ s.categoryId = p.categoryId) →
      createSubcategory st b =
        (conflict409 "Subcategory with this name already exists in this category",
         st)) ∧
    ((∀ s ∈ st.subcategories,
        ¬(ciEq s.name p.name = true ∧ s.categoryId = p.categoryId)) →
      (categoryFindUnique st p.categoryId).isSome →
      createSubcategory st b =
        (ok200 (Body.subcategory ⟨genId st.nextId, p.name, p.categoryId⟩),
         { st with
            subcategories := st.subcategories ++ [⟨genId st.nextId, p.name, p.categoryId⟩],
            nextId := st.nextId + 1 })) ∧
    ((∀ s ∈ st.subcategories,
        ¬(ciEq s.name p.name = true ∧ s.categoryId = p.categoryId)) →
      categoryFindUnique st p.categoryId = none →
      createSubcategory st b =
        (err500 "Foreign key constraint failed on the field: categoryId", st)) := by
  refine ⟨?_, ?_, ?_⟩
  · rintro ⟨s, hs, hname, hcat⟩
    have hsome : (subcategoryFindFirstCI st p.name p.categoryId).isSome := by
      unfold subcategoryFindFirstCI
      exact List.find?_isSome.mpr ⟨s, hs, by simp [hname, hcat]⟩
    obtain ⟨s0, hs0⟩ := Option.isSome_iff_exists.mp hsome
    simp [createSubcategory, hv, hs0]
  · intro hnodup hsome
    have h0 : subcategoryFindFirstCI st p.name p.categoryId = none := by
      unfold subcategoryFindFirstCI
      refine List.find?_eq_none.mpr (fun x hx => ?_)
      have := hnodup x hx
      simp only [Bool.and_eq_true, beq_iff_eq]
      tauto
    simp [createSubcategory, hv, h0, subcategoryCreate, hsome]
  · intro hnodup hnone
    have h0 : subcategoryFindFirstCI st p.name p.categoryId = none := by
      unfold subcategoryFindFirstCI
      refine List.find?_eq_none.mpr (fun x hx => ?_)
      have := hnodup x hx
      simp only [Bool.and_eq_true, beq_iff_eq]
      tauto
    simp [createSubcategory, hv, h0, subcategoryCreate, hnone]

/-- C7 witness: with `Rock` stored under category `uuidA`, creating `ROCK`
under the existing category `uuidB` inserts a new row (no conflict across
categories), and creating `ROCK` under `uuidA` itself conflicts with 409. -/
theorem c7_subcategory_create_scoped_witness :
    (createSubcategory
        ⟨[⟨uuidA, "Tech"⟩, ⟨uuidB, "Art"⟩], [⟨uuidC, "Rock", uuidA⟩], [], 7, 0⟩
        ⟨some (Value.vStr "ROCK"), some (Value.vStr uuidB)⟩ =
      (ok200 (Body.subcategory ⟨genId 7, "ROCK", uuidB⟩),
       ⟨[⟨uuidA, "Tech"⟩, ⟨uuidB, "Art"⟩],
        [⟨uuidC, "Rock", uuidA⟩, ⟨genId 7, "ROCK", uuidB⟩], [], 8, 0⟩)) ∧
    (createSubcategory
        ⟨[⟨uuidA, "Tech"⟩, ⟨uuidB, "Art"⟩], [⟨uuidC, "Rock", uuidA⟩], [], 7, 0⟩
        ⟨some (Value.vStr "ROCK"), some (Value.vStr uuidA)⟩ =
      (conflict409 "Subcategory with this name already exists in this category",
       ⟨[⟨uuidA, "Tech"⟩, ⟨uuidB, "Art"⟩], [⟨uuidC, "Rock", uuidA⟩], [], 7, 0⟩)) := by
  constructor
  · exact ((c7_subcategory_create_scoped
        ⟨[⟨uuidA, "Tech"⟩, ⟨uuidB, "Art"⟩], [⟨uuidC, "Rock", uuidA⟩], [], 7, 0⟩
        ⟨some (Value.vStr "ROCK"), some (Value.vStr uuidB)⟩
        ⟨"ROCK", uuidB⟩ rfl).2).1 (by decide) (by decide)
  · exact (c7_subcategory_create_scoped
        ⟨[⟨uuidA, "Tech"⟩, ⟨uuidB, "Art"⟩], [⟨uuidC, "Rock", uuidA⟩], [], 7, 0⟩
        ⟨some (Value.vStr "ROCK"), some (Value.vStr uuidA)⟩
        ⟨"ROCK", uuidA⟩ rfl).1 ⟨⟨uuidC, "Rock", uuidA⟩, by simp, by decide, rfl⟩

/-! ## Validation and date-conversion lemmas -/

/-- A body the event schema accepts carries exactly the date value the date
field parser produced. -/
theorem validateEvent_ok_date (b : RawEventBody) (p : ParsedEvent)
    (h : validateEvent b = .ok p) : parseDateField b.date = .ok p.date := by
  unfold validateEvent at h
  split at h
  · rename_i hn hd hvv hiu hc hsc hph hem
    injection h with h
    subst h
    exact hd
  · exact absurd h (by simp)

/-- A date value the schema accepted always converts: a number converts to
itself, a string to what the runtime date parser returned — the conversion
step can never throw after validation. -/
theorem parseDateField_ok_convert (x : Option Value) (d : Int ⊕ String)
    (h : parseDateField x = .ok d) :
    ∃ u, convertDate d = .ok u ∧
      (∀ n, d = Sum.inl n → u = jsNewDateNum n) ∧
      (∀ s, d = Sum.inr s → ∃ t, u = some t ∧ jsDateParse s = some t) := by
  cases x with
  | none => simp [parseDateField] at h
  | some v =>
    cases v with
    | vStr s =>
      simp only [parseDateField] at h
      split at h
      · rename_i hs
        injection h with h
        subst h
        obtain ⟨t, ht⟩ := Option.isSome_iff_exists.mp hs
        refine ⟨some t, by simp [convertDate, parseDate, ht], by simp, ?_⟩
        intro s2 hs2
        cases hs2
        exact ⟨t, rfl, ht⟩
      · exact absurd h (by simp)
    | vNum n =>
      simp only [parseDateField] at h
      split at h
      · injection h with h
        subst h
        refine ⟨jsNewDateNum n, rfl, ?_, by simp⟩
        intro n2 hn2
        cases hn2
        rfl
      · exact absurd h (by simp)
    | vBool b2 => simp [parseDateField] at h
    | vNull => simp [parseDateField] at h

/-- Composition of the last two lemmas at the level of a validated body:
after validation the conversion step never throws — a number yields the
(possibly Invalid) `new Date` value, a string the parsed instant. -/
theorem validateEvent_ok_convert (b : RawEventBody) (p : ParsedEvent)
    (h : validateEvent b = .ok p) :
    ∃ u, convertDate p.date = .ok u ∧
      (∀ n, p.date = Sum.inl n → u = jsNewDateNum n) ∧
      (∀ s, p.date = Sum.inr s → ∃ t, u = some t ∧ jsDateParse s = some t) :=
  parseDateField_ok_convert _ _ (validateEvent_ok_date b p h)

/-- The Event row a successful creation inserts: fresh id, converted date,
the optional fields collapsed to their stored values, `createdAt` from the
store clock. -/
def newEventOf (st : St) (p : ParsedEvent) (t : Int) : Event :=
  ⟨genId st.nextId, p.name, t, p.venue, p.imageUrl.join,
   p.categoryId, p.subcategoryId, p.contactPhone, p.contactEmail, st.now⟩

/-- The store after a successful Event creation. -/
def stAfterCreate (st : St) (p : ParsedEvent) (t : Int) : St :=
  { st with events := st.events ++ [newEventOf st p t],
            nextId := st.nextId + 1, now := st.now + 1 }

/-! ## C2 — Event creation verifies both references -/

/-- C2 (amended): for a shape-valid Event body, a `categoryId` that resolves
to no Category answers 404 with a message naming that id and no Event row is
persisted; the same for `subcategoryId`; when both resolve, the conversion
step never throws, and the Event is inserted and returned joined with
exactly the Category and Subcategory found whenever the converted date is a
real instant — while a validated numeric date beyond the ECMAScript Date
range yields an Invalid Date that the store rejects, a 500 with no row
persisted. -/
theorem c2_event_create_checks_references (st : St) (b : RawEventBody)
    (p : ParsedEvent) (hv : validateEvent b = .ok p) :
    (categoryFindUnique st p.categoryId = none →
      createEvent st b =
        (notFound404 ("Category with ID " ++ p.categoryId ++ " does not exist"),
         st)) ∧
    (∀ c, categoryFindUnique st p.categoryId = some c →
      subcategoryFindUnique st p.subcategoryId = none →
      createEvent st b =
        (notFound404 ("Subcategory with ID " ++ p.subcategoryId ++ " does not exist"),
         st)) ∧
    (∀ c s, categoryFindUnique st p.categoryId = some c →
      subcategoryFindUnique st p.subcategoryId = some s →
      ∃ u, convertDate p.date = .ok u ∧
        (∀ t, u = some t →
          createEvent st b =
            (ok200 (Body.eventJ ⟨newEventOf st p t, some c, some s⟩),
             stAfterCreate st p t)) ∧
        (u = none →
          createEvent st b = (err500 "Provided Date object is invalid.", st))) := by
  refine ⟨?_, ?_, ?_⟩
  · intro hnone
    simp [createEvent, hv, hnone]
  · intro c hc hs
    simp [createEvent, hv, hc, hs]
  · intro c s hc hs
    obtain ⟨u, ht, _, _⟩ := validateEvent_ok_convert b p hv
    refine ⟨u, ht, ?_, ?_⟩
    · intro t hut
      subst hut
      simp [createEvent, hv, hc, hs, ht, eventCreate, newEventOf, stAfterCreate,
            joinEvent, categoryFindUnique, subcategoryFindUnique] at hc hs ⊢
      have h1 : ∃ x ∈ st.categories, x.id = p.categoryId :=
        ⟨c, List.mem_of_find?_eq_some hc, by simpa using List.find?_some hc⟩
      have h2 : ∃ x ∈ st.subcategories, x.id = p.subcategoryId :=
        ⟨s, List.mem_of_find?_eq_some hs, by simpa using List.find?_some hs⟩
      simp [h1, h2, hc, hs]
    · intro hun
      subst hun
      simp [createEvent, hv, hc, hs, ht, eventCreate]

/-- C2 witness: on the empty store the creation fails 404 naming the missing
category id; with the Category present but not the Subcategory it fails 404
naming the missing subcategory id; the store is unchanged both times. -/
theorem c2_event_create_checks_references_witness :
    (createEvent emptySt sampleEventBody =
      (notFound404 ("Category with ID " ++ uuidA ++ " does not exist"), emptySt)) ∧
    (createEvent ⟨[⟨uuidA, "Tech"⟩], [], [], 3, 0⟩ sampleEventBody =
      (notFound404 ("Subcategory with ID " ++ uuidB ++ " does not exist"),
       ⟨[⟨uuidA, "Tech"⟩], [], [], 3, 0⟩)) := by
  constructor
  · exact (c2_event_create_checks_references emptySt sampleEventBody
      ⟨"Concert", Sum.inl 1732000000000, "Hall", none, uuidA, uuidB, none, none⟩
      rfl).1 rfl
  · exact ((c2_event_create_checks_references ⟨[⟨uuidA, "Tech"⟩], [], [], 3, 0⟩
      sampleEventBody
      ⟨"Concert", Sum.inl 1732000000000, "Hall", none, uuidA, uuidB, none, none⟩
      rfl).2).1 ⟨uuidA, "Tech"⟩ rfl rfl

/-! ## C9 — missing Event: update and delete give 500, getById gives 404 -/

/-- C9: for a syntactically valid id that matches no Event row, updating
(with a shape-valid body) and deleting both fall into the generic catch —
status 500 with message `Internal server error`, never a 404 — while getById
answers 404; the store is unchanged in all three cases.  (For update only
status, message and state are pinned: the `details` string is the store
client's, a P2025 for a real instant or the invalid-Date rejection for an
out-of-range epoch.) -/
theorem c9_missing_event_update_delete_500 (st : St) (id : String)
    (b : RawEventBody) (p : ParsedEvent)
    (hid : isValidUUID id = true)
    (hmiss : st.events.find? (fun e => e.id == id) = none)
    (hv : validateEvent b = .ok p) :
    ((updateEvent st id b).1.status = 500 ∧
     (updateEvent st id b).1.message = some "Internal server error" ∧
     (updateEvent st id b).2 = st) ∧
    deleteEvent st id = (err500 "Record to delete does not exist.", st) ∧
    getEventById st id = (notFound404 "Event not found", st) := by
  obtain ⟨u, ht, _, _⟩ := validateEvent_ok_convert b p hv
  have hany : st.events.any (fun e => e.id == id) = false :=
    List.any_eq_false.mpr (fun x hx => List.find?_eq_none.mp hmiss x hx)
  refine ⟨?_, ?_, ?_⟩
  · rcases u with _ | t
    · simp [updateEvent, hid, hv, ht, eventUpdate, err500]
    · simp [updateEvent, hid, hv, ht, eventUpdate, hmiss, err500]
  · simp [deleteEvent, hid, eventDelete, hany]
  · simp [getEventById, hid, eventFindUnique, hmiss]

/-- C9 witness: the empty store with a concrete valid UUID and a shape-valid
body. -/
theorem c9_missing_event_update_delete_500_witness :
    ((updateEvent emptySt uuidA sampleEventBody).1.status = 500 ∧
     (updateEvent emptySt uuidA sampleEventBody).1.message =
       some "Internal server error" ∧
     (updateEvent emptySt uuidA sampleEventBody).2 = emptySt) ∧
    deleteEvent emptySt uuidA = (err500 "Record to delete does not exist.", emptySt) ∧
    getEventById emptySt uuidA = (notFound404 "Event not found", emptySt) :=
  c9_missing_event_update_delete_500 emptySt uuidA sampleEventBody
    ⟨"Concert", Sum.inl 1732000000000, "Hall", none, uuidA, uuidB, none, none⟩
    (by decide) rfl rfl

/-! ## C8 — Event update: full schema, no referential re-check -/

/-- The row a successful update writes: every submitted field replaces the
old value, an absent optional field keeps the old value (Prisma skips
`undefined`), and `id` and `createdAt` are untouched. -/
def updatedEventOf (old : Event) (p : ParsedEvent) (t : Int) : Event :=
  ⟨old.id, p.name, t, p.venue,
   (match p.imageUrl with
    | none => old.imageUrl
    | some v => v),
   p.categoryId, p.subcategoryId,
   (match p.contactPhone with
    | none => old.contactPhone
    | some v => some v),
   (match p.contactEmail with
    | none => old.contactEmail
    | some v => some v),
   old.createdAt⟩

/-- The store after a successful update of the row at `id` to `e`. -/
def stAfterUpdate (st : St) (id : String) (e : Event) : St :=
  { st with events := st.events.map (fun x => if x.id == id then e else x) }

/-- C8 (amended): event update validates the id, then the body against the
full creation schema (any validation failure — e.g. a missing required
field — answers 400: no partial updates), converts the date without ever
throwing, and, whenever the converted date is a real instant, persists all
submitted fields and returns the updated Event joined with its Category and
Subcategory — a validated numeric date beyond the ECMAScript Date range is
instead rejected by the store as a 500 with nothing written; and it never
re-verifies that the referenced Category or Subcategory exist, so a
dangling reference reaches the store and surfaces as its generic 500
instead of a 404. -/
theorem c8_event_update_full_schema (st : St) (id : String) (b : RawEventBody) :
    (isValidUUID id = false →
      updateEvent st id b = (bad400 "Valid Event ID is required", st)) ∧
    (∀ es, isValidUUID id = true → validateEvent b = .error es →
      updateEvent st id b = (validation400 es, st)) ∧
    (∀ p old c s, isValidUUID id = true → validateEvent b = .ok p →
      st.events.find? (fun e => e.id == id) = some old →
      categoryFindUnique st p.categoryId = some c →
      subcategoryFindUnique st p.subcategoryId = some s →
      ∃ u, convertDate p.date = .ok u ∧
        (∀ t, u = some t →
          updateEvent st id b =
            (ok200 (Body.eventJ ⟨updatedEventOf old p t, some c, some s⟩),
             stAfterUpdate st id (updatedEventOf old p t))) ∧
        (u = none →
          updateEvent st id b =
            (err500 "Provided Date object is invalid.", st))) ∧
    (∀ p old t, isValidUUID id = true → validateEvent b = .ok p →
      convertDate p.date = .ok (some t) →
      st.events.find? (fun e => e.id == id) = some old →
      categoryFindUnique st p.categoryId = none →
      updateEvent st id b = (err500 "Foreign key constraint failed", st)) := by
  refine ⟨?_, ?_, ?_, ?_⟩
  · intro hbad
    simp [updateEvent, hbad]
  · intro es hid herr
    simp [updateEvent, hid, herr]
  · intro p old c s hid hv hfind hc hs
    obtain ⟨u, ht, _, _⟩ := validateEvent_ok_convert b p hv
    refine ⟨u, ht, ?_, ?_⟩
    · intro t hut
      subst hut
      simp [updateEvent, hid, hv, ht, eventUpdate, hfind, joinEvent,
            updatedEventOf, categoryFindUnique, subcategoryFindUnique] at hc hs ⊢
      have h1 : ∃ x ∈ st.categories, x.id = p.categoryId :=
        ⟨c, List.mem_of_find?_eq_some hc, by simpa using List.find?_some hc⟩
      have h2 : ∃ x ∈ st.subcategories, x.id = p.subcategoryId :=
        ⟨s, List.mem_of_find?_eq_some hs, by simpa using List.find?_some hs⟩
      simp [h1, h2, hc, hs, stAfterUpdate, updatedEventOf]
    · intro hun
      subst hun
      simp [updateEvent, hid, hv, ht, eventUpdate]
  · intro p old t hid hv ht hfind hc
    have hfn : List.find? (fun c => c.id == p.categoryId) st.categories = none := hc
    have hnot : ¬ ∃ x ∈ st.categories, x.id = p.categoryId := by
      rintro ⟨x, hx, hxid⟩
      have := List.find?_eq_none.mp hfn x hx
      simp [hxid] at this
    simp [updateEvent, hid, hv, ht, eventUpdate, hfind,
          categoryFindUnique, subcategoryFindUnique, hnot]

/-- A pre-existing Event row used in the update scenario. -/
def e8 : Event := ⟨uuidC, "Old", 5, "OldHall", none, uuidA, uuidB, none, none, 0⟩

/-- A store holding one Category, one Subcategory and the Event `e8`. -/
def st8 : St := ⟨[⟨uuidA, "Tech"⟩], [⟨uuidB, "AI", uuidA⟩], [e8], 9, 3⟩

/-- The parsed form of `sampleEventBody`. -/
def p8 : ParsedEvent :=
  ⟨"Concert", Sum.inl 1732000000000, "Hall", none, uuidA, uuidB, none, none⟩

/-- C8 witness: updating the stored Event with the sample body (an in-range
numeric date) persists all submitted fields and returns the joined updated
Event. -/
theorem c8_event_update_full_schema_witness :
    ∃ u, convertDate p8.date = .ok u ∧
      (∀ t, u = some t →
        updateEvent st8 uuidC sampleEventBody =
          (ok200 (Body.eventJ
            ⟨updatedEventOf e8 p8 t, some ⟨uuidA, "Tech"⟩, some ⟨uuidB, "AI", uuidA⟩⟩),
           stAfterUpdate st8 uuidC (updatedEventOf e8 p8 t))) ∧
      (u = none →
        updateEvent st8 uuidC sampleEventBody =
          (err500 "Provided Date object is invalid.", st8)) :=
  ((c8_event_update_full_schema st8 uuidC sampleEventBody).2.2.1)
    p8 e8 ⟨uuidA, "Tech"⟩ ⟨uuidB, "AI", uuidA⟩ (by decide) rfl rfl rfl rfl

/-! ## C6 — date acceptance, conversion, and round-trip -/

/-- C6 (amended): an Event-creation date that is a positive integer epoch
within the ECMAScript Date range or a parseable date string is accepted and
converted to the equivalent instant (in-range numbers convert to themselves
and round-trip through creation and retrieval; strings convert to what the
runtime parser yields); any date the schema rejects makes the whole request
a 400 validation failure carrying the date issue, and the conversion step
never throws after validation — but a positive integer epoch beyond the
8.64e15-millisecond range passes validation and then yields an Invalid Date
that the store rejects, so createEvent answers 500 exactly on such
out-of-range numeric dates and on nothing else. -/
theorem c6_event_date_acceptance_roundtrip :
    (∀ (st : St) (b : RawEventBody) (i : ZodIssue),
      parseDateField b.date = .error i →
      ∃ es, validateEvent b = .error es ∧
        createEvent st b = (validation400 es, st) ∧ i ∈ es) ∧
    (∀ (st : St) (b : RawEventBody), (createEvent st b).1.status = 500 →
      ∃ p n, validateEvent b = .ok p ∧ p.date = Sum.inl n ∧
        8640000000000000 < n.natAbs) ∧
    (∀ (b : RawEventBody) (p : ParsedEvent), validateEvent b = .ok p →
      ∃ u, convertDate p.date = .ok u ∧
        (∀ n, p.date = Sum.inl n → u = jsNewDateNum n) ∧
        (∀ s, p.date = Sum.inr s → ∃ t, u = some t ∧ jsDateParse s = some t)) ∧
    (∀ (st : St) (b : RawEventBody) (p : ParsedEvent) (n : Int)
        (c : Category) (s : Subcategory),
      validateEvent b = .ok p → p.date = Sum.inl n →
      n.natAbs ≤ 8640000000000000 →
      categoryFindUnique st p.categoryId = some c →
      subcategoryFindUnique st p.subcategoryId = some s →
      (∀ e ∈ st.events, e.id ≠ genId st.nextId) →
      createEvent st b =
        (ok200 (Body.eventJ ⟨newEventOf st p n, some c, some s⟩),
         stAfterCreate st p n) ∧
      (getEventById (stAfterCreate st p n) (genId st.nextId)).1 =
        ok200 (Body.eventJ (joinEvent (stAfterCreate st p n) (newEventOf st p n))) ∧
      (newEventOf st p n).date = n) ∧
    (∀ (st : St) (b : RawEventBody) (p : ParsedEvent) (n : Int)
        (c : Category) (s : Subcategory),
      validateEvent b = .ok p → p.date = Sum.inl n →
      8640000000000000 < n.natAbs →
      categoryFindUnique st p.categoryId = some c →
      subcategoryFindUnique st p.subcategoryId = some s →
      createEvent st b = (err500 "Provided Date object is invalid.", st)) := by
  refine ⟨?_, ?_, ?_, ?_, ?_⟩
  · intro st b i h
    have hval : validateEvent b = .error (eventFieldIssues b) := by
      unfold validateEvent
      split
      · rename_i hn hd hx hiu hc hsc hph hem
        simp [h] at hd
      · rfl
    exact ⟨eventFieldIssues b, hval, by simp [createEvent, hval],
           by simp [eventFieldIssues, issuesOf, h]⟩
  · intro st b h5
    rcases hval : validateEvent b with es | p
    · simp [createEvent, hval, validation400] at h5
    · obtain ⟨u, ht, hnum, hstr⟩ := validateEvent_ok_convert b p hval
      rcases hc : categoryFindUnique st p.categoryId with _ | c
      · simp [createEvent, hval, hc, notFound404] at h5
      · rcases hs : subcategoryFindUnique st p.subcategoryId with _ | s
        · simp [createEvent, hval, hc, hs, notFound404] at h5
        · cases u with
          | none =>
            cases hd : p.date with
            | inl n =>
              refine ⟨p, n, rfl, hd, ?_⟩
              have h0 := hnum n hd
              by_contra hnle
              have hle : n.natAbs ≤ 8640000000000000 := Nat.le_of_not_lt hnle
              simp [jsNewDateNum, hle] at h0
            | inr s2 =>
              obtain ⟨t2, h0, _⟩ := hstr s2 hd
              simp at h0
          | some t =>
            simp [createEvent, hval, hc, hs, ht, eventCreate,
                  categoryFindUnique, subcategoryFindUnique] at hc hs h5
            have h1 : ∃ x ∈ st.categories, x.id = p.categoryId :=
              ⟨c, List.mem_of_find?_eq_some hc, by simpa using List.find?_some hc⟩
            have h2 : ∃ x ∈ st.subcategories, x.id = p.subcategoryId :=
              ⟨s, List.mem_of_find?_eq_some hs, by simpa using List.find?_some hs⟩
            simp [h1, h2, hc, hs, ok200] at h5
  · exact validateEvent_ok_convert
  · intro st b p n c s hv hdate hrange hc hs hfresh
    obtain ⟨u, ht, hnum, _⟩ := validateEvent_ok_convert b p hv
    have hun : u = some n := by
      rw [hnum n hdate]
      simp [jsNewDateNum, hrange]
    subst hun
    refine ⟨?_, ?_, rfl⟩
    · simp [createEvent, hv, hc, hs, ht, eventCreate, newEventOf, stAfterCreate,
            joinEvent, categoryFindUnique, subcategoryFindUnique] at hc hs ⊢
      have h1 : ∃ x ∈ st.categories, x.id = p.categoryId :=
        ⟨c, List.mem_of_find?_eq_some hc, by simpa using List.find?_some hc⟩
      have h2 : ∃ x ∈ st.subcategories, x.id = p.subcategoryId :=
        ⟨s, List.mem_of_find?_eq_some hs, by simpa using List.find?_some hs⟩
      simp [h1, h2, hc, hs]
    · have hfind : (stAfterCreate st p n).events.find?
          (fun e => e.id == genId st.nextId) = some (newEventOf st p n) := by
        have hnone : st.events.find? (fun e => e.id == genId st.nextId) = none :=
          List.find?_eq_none.mpr (fun x hx => by simp [hfresh x hx])
        simp [stAfterCreate, List.find?_append, hnone, newEventOf]
      simp [getEventById, isValidUUID_genId, eventFindUnique, hfind]
  · intro st b p n c s hv hdate hrange hc hs
    obtain ⟨u, ht, hnum, _⟩ := validateEvent_ok_convert b p hv
    have hun : u = none := by
      rw [hnum n hdate]
      unfold jsNewDateNum
      rw [if_neg (by omega)]
    subst hun
    simp [createEvent, hv, hc, hs, ht, eventCreate]

/-- A store with one Category and one Subcategory, ready for Event creation. -/
def st6 : St := ⟨[⟨uuidA, "Tech"⟩], [⟨uuidB, "AI", uuidA⟩], [], 0, 0⟩

/-- A shape-valid event body whose numeric date `8640000000000001` lies one
millisecond beyond the ECMAScript Date range. -/
def bHuge : RawEventBody :=
  ⟨some (Value.vStr "Concert"), some (Value.vNum 8640000000000001),
   some (Value.vStr "Hall"), none,
   some (Value.vStr uuidA), some (Value.vStr uuidB), none, none⟩

/-- The parsed form of `bHuge`: the schema accepts the out-of-range epoch. -/
def pHuge : ParsedEvent :=
  ⟨"Concert", Sum.inl 8640000000000001, "Hall", none, uuidA, uuidB, none, none⟩

/-- C6 counterexample to the original claim: the positive integer epoch
`8640000000000001` passes shape validation, both references resolve, and
yet creation answers 500 — an internal error the claim said could never
happen for an accepted-type date — with no row written. -/
theorem c6_event_date_acceptance_roundtrip_counterexample :
    validateEvent bHuge = .ok pHuge ∧
    (createEvent st6 bHuge).1.status = 500 ∧
    (createEvent st6 bHuge).2 = st6 := ⟨rfl, rfl, rfl⟩

/-- C6 witness: creating with the in-range integer epoch `1732000000000`
succeeds and retrieving the new Event yields that same instant. -/
theorem c6_event_date_acceptance_roundtrip_witness :
    createEvent st6 sampleEventBody =
      (ok200 (Body.eventJ
        ⟨newEventOf st6 p8 1732000000000, some ⟨uuidA, "Tech"⟩, some ⟨uuidB, "AI", uuidA⟩⟩),
       stAfterCreate st6 p8 1732000000000) ∧
    (getEventById (stAfterCreate st6 p8 1732000000000) (genId 0)).1 =
      ok200 (Body.eventJ
        (joinEvent (stAfterCreate st6 p8 1732000000000) (newEventOf st6 p8 1732000000000))) ∧
    (newEventOf st6 p8 1732000000000).date = 1732000000000 :=
  c6_event_date_acceptance_roundtrip.2.2.2.1 st6 sampleEventBody p8 1732000000000
    ⟨uuidA, "Tech"⟩ ⟨uuidB, "AI", uuidA⟩ rfl rfl (by decide) rfl rfl (by simp [st6])

/-! ## C5 — validation failures carry all field issues; errors only there -/

/-- A failing event validation reports exactly the issues of every field. -/
theorem validateEvent_error_eq (b : RawEventBody) (es : List ZodIssue)
    (h : validateEvent b = .error es) : es = eventFieldIssues b := by
  unfold validateEvent at h
  split at h
  · simp at h
  · injection h with h
    exact h.symm

/-- A failing category validation reports exactly its field issues. -/
theorem validateCategory_error_eq (b : RawCategoryBody) (es : List ZodIssue)
    (h : validateCategory b = .error es) : es = categoryFieldIssues b := by
  unfold validateCategory at h
  split at h
  · simp at h
  · injection h with h
    exact h.symm

/-- A failing subcategory validation reports exactly its field issues. -/
theorem validateSubcategory_error_eq (b : RawSubcategoryBody) (es : List ZodIssue)
    (h : validateSubcategory b = .error es) : es = subcategoryFieldIssues b := by
  unfold validateSubcategory at h
  split at h
  · simp at h
  · injection h with h
    exact h.symm

/-- C5: on every entity creation or update, a body violating field rules
produces the single 400 validation response whose `errors` list is exactly
the concatenation of every field's issues — so each violated field rule
appears in it, not just the first — and an `errors` array can arise only
from a validation failure: every conflict, not-found and store-error
response carries none. -/
theorem c5_validation_errors_complete :
    (∀ (st : St) (b : RawEventBody) (es : List ZodIssue),
      validateEvent b = .error es →
      createEvent st b = (validation400 es, st) ∧ es = eventFieldIssues b) ∧
    (∀ (st : St) (b : RawEventBody),
      (createEvent st b).1.errors ≠ none →
      ∃ es, validateEvent b = .error es ∧ (createEvent st b).1 = validation400 es) ∧
    (∀ (st : St) (b : RawCategoryBody) (es : List ZodIssue),
      validateCategory b = .error es →
      createCategory st b = (validation400 es, st) ∧ es = categoryFieldIssues b) ∧
    (∀ (st : St) (b : RawCategoryBody),
      (createCategory st b).1.errors ≠ none →
      ∃ es, validateCategory b = .error es ∧ (createCategory st b).1 = validation400 es) ∧
    (∀ (st : St) (b : RawSubcategoryBody) (es : List ZodIssue),
      validateSubcategory b = .error es →
      createSubcategory st b = (validation400 es, st) ∧ es = subcategoryFieldIssues b) ∧
    (∀ (st : St) (b : RawSubcategoryBody),
      (createSubcategory st b).1.errors ≠ none →
      ∃ es, validateSubcategory b = .error es ∧ (createSubcategory st b).1 = validation400 es) ∧
    (∀ (st : St) (id : String) (b : RawEventBody) (es : List ZodIssue),
      isValidUUID id = true → validateEvent b = .error es →
      updateEvent st id b = (validation400 es, st)) ∧
    (∀ (st : St) (id : String) (b : RawEventBody),
      (updateEvent st id b).1.errors ≠ none →
      ∃ es, validateEvent b = .error es ∧ (updateEvent st id b).1 = validation400 es) ∧
    (∀ (b : RawEventBody) (i : ZodIssue),
      (parseRequiredString "name" "Event name is required" 1 b.name = .error i →
        i ∈ eventFieldIssues b) ∧
      (parseDateField b.date = .error i → i ∈ eventFieldIssues b) ∧
      (parseRequiredString "venue" "Venue is required" 1 b.venue = .error i →
        i ∈ eventFieldIssues b) ∧
      (parseImageUrl b.imageUrl = .error i → i ∈ eventFieldIssues b) ∧
      (parseUUIDField "categoryId" b.categoryId = .error i → i ∈ eventFieldIssues b) ∧
      (parseUUIDField "subcategoryId" b.subcategoryId = .error i → i ∈ eventFieldIssues b) ∧
      (parseContactPhone b.contactPhone = .error i → i ∈ eventFieldIssues b) ∧
      (parseContactEmail b.contactEmail = .error i → i ∈ eventFieldIssues b)) := by
  refine ⟨?_, ?_, ?_, ?_, ?_, ?_, ?_, ?_, ?_⟩
  · intro st b es h
    exact ⟨by simp [createEvent, h], validateEvent_error_eq b es h⟩
  · intro st b hne
    rcases hval : validateEvent b with es | p
    · exact ⟨es, rfl, by simp [createEvent, hval]⟩
    · exfalso
      apply hne
      obtain ⟨u, ht, _, _⟩ := validateEvent_ok_convert b p hval
      rcases hc : categoryFindUnique st p.categoryId with _ | c
      · simp [createEvent, hval, hc, notFound404]
      · rcases hs : subcategoryFindUnique st p.subcategoryId with _ | s
        · simp [createEvent, hval, hc, hs, notFound404]
        · cases u with
          | none => simp [createEvent, hval, hc, hs, ht, eventCreate, err500]
          | some t =>
            simp [createEvent, hval, hc, hs, ht, eventCreate,
                  categoryFindUnique, subcategoryFindUnique] at hc hs ⊢
            have h1 : ∃ x ∈ st.categories, x.id = p.categoryId :=
              ⟨c, List.mem_of_find?_eq_some hc, by simpa using List.find?_some hc⟩
            have h2 : ∃ x ∈ st.subcategories, x.id = p.subcategoryId :=
              ⟨s, List.mem_of_find?_eq_some hs, by simpa using List.find?_some hs⟩
            simp [h1, h2, hc, hs, ok200]
  · intro st b es h
    exact ⟨by simp [createCategory, h], validateCategory_error_eq b es h⟩
  · intro st b hne
    rcases hval : validateCategory b with es | p
    · exact ⟨es, rfl, by simp [createCategory, hval]⟩
    · exfalso
      apply hne
      rcases hf : categoryFindFirstCI st p.name with _ | c
      · simp [createCategory, hval, hf, categoryCreate, ok200]
      · simp [createCategory, hval, hf, conflict409]
  · intro st b es h
    exact ⟨by simp [createSubcategory, h], validateSubcategory_error_eq b es h⟩
  · intro st b hne
    rcases hval : validateSubcategory b with es | p
    · exact ⟨es, rfl, by simp [createSubcategory, hval]⟩
    · exfalso
      apply hne
      rcases hf : subcategoryFindFirstCI st p.name p.categoryId with _ | s
      · rcases hcc : categoryFindUnique st p.categoryId with _ | c
        · simp [createSubcategory, hval, hf, subcategoryCreate, hcc, err500]
        · simp [createSubcategory, hval, hf, subcategoryCreate, hcc, ok200]
      · simp [createSubcategory, hval, hf, conflict409]
  · intro st id b es hid h
    simp [updateEvent, hid, h]
  · intro st id b hne
    cases hidv : isValidUUID id
    · exfalso
      apply hne
      simp [updateEvent, hidv, bad400]
    · rcases hval : validateEvent b with es | p
      · exact ⟨es, rfl, by simp [updateEvent, hidv, hval]⟩
      · exfalso
        apply hne
        obtain ⟨u, ht, _, _⟩ := validateEvent_ok_convert b p hval
        cases u with
        | none => simp [updateEvent, hidv, hval, ht, eventUpdate, err500]
        | some t =>
          rcases hfind : st.events.find? (fun e => e.id == id) with _ | old
          · simp [updateEvent, hidv, hval, ht, eventUpdate, hfind, err500]
          · cases hg : ((categoryFindUnique st p.categoryId).isSome &&
                (subcategoryFindUnique st p.subcategoryId).isSome)
            · simp [updateEvent, hidv, hval, ht, eventUpdate, hfind, hg, err500]
            · simp [updateEvent, hidv, hval, ht, eventUpdate, hfind, hg, ok200]
  · intro b i
    refine ⟨?_, ?_, ?_, ?_, ?_, ?_, ?_, ?_⟩ <;>
      (intro h; simp [eventFieldIssues, issuesOf, h])

/-- A body violating three field rules at once: missing name, non-positive
numeric date, malformed categoryId. -/
def badBody5 : RawEventBody :=
  ⟨none, some (Value.vNum (-5)), some (Value.vStr "Hall"), none,
   some (Value.vStr "zzz"), some (Value.vStr uuidB), none, none⟩

/-- The three issues that body produces, one per violated field. -/
def badIssues5 : List ZodIssue :=
  [⟨"name", "Required"⟩, ⟨"date", "Date must be a valid timestamp"⟩,
   ⟨"categoryId", "Invalid UUID format"⟩]

/-- C5 witness: a creation body violating three field rules is answered with
the single 400 response listing all three issues. -/
theorem c5_validation_errors_complete_witness :
    createEvent emptySt badBody5 = (validation400 badIssues5, emptySt) ∧
    badIssues5 = eventFieldIssues badBody5 :=
  c5_validation_errors_complete.1 emptySt badBody5 badIssues5 rfl

/-- C2 counterexample to the original claim: for `bHuge` the body passes
shape validation and both references resolve, yet no Event is inserted —
the store rejects the out-of-range date and the handler answers 500 with
the store unchanged. -/
theorem c2_event_create_checks_references_counterexample :
    validateEvent bHuge = .ok pHuge ∧
    categoryFindUnique st6 pHuge.categoryId = some ⟨uuidA, "Tech"⟩ ∧
    subcategoryFindUnique st6 pHuge.subcategoryId = some ⟨uuidB, "AI", uuidA⟩ ∧
    createEvent st6 bHuge = (err500 "Provided Date object is invalid.", st6) :=
  ⟨rfl, rfl, rfl, rfl⟩

/-- C8 counterexample to the original claim: updating the existing Event
`e8` with the shape-valid body `bHuge` persists nothing — the out-of-range
numeric date is rejected by the store, a 500 with the store unchanged. -/
theorem c8_event_update_full_schema_counterexample :
    isValidUUID uuidC = true ∧
    validateEvent bHuge = .ok pHuge ∧
    st8.events.find? (fun e => e.id == uuidC) = some e8 ∧
    updateEvent st8 uuidC bHuge = (err500 "Provided Date object is invalid.", st8) :=
  ⟨by decide, rfl, rfl, rfl⟩
